import Mathlib

/-!
The header record `larsyst::SystParamHeader` and `larsyst::Validate`.

A shallow embedding of `larsyst/interface/SystParamHeader.hh`: the
`SystParamHeader` record, its default constructor, and the `Validate`
function, together with the text `Validate` writes to `std::cout`.

Conventions of the embedding:

* `paramId_t` and `kParamUnhandled<paramId_t>` are declared in
  `larsyst/interface/types.hh`; the identifier type is embedded as `Nat`
  and the sentinel is a parameter `kParamUnhandled` of every definition
  that mentions it.
* `double` is an IEEE-754 binary64 value kept as its bit pattern, with the
  C++ `operator==` (a NaN equals nothing, the two zeros are equal).
* `std::vector<T>` is `List T` and `size()` is `List.length`;
  `std::string` is `String` and `size()` is its number of bytes.
* A conversion of an integer `n` to `bool` is written `n != 0`.
* `Validate` returns the pair of its `bool` result and the list of lines it
  wrote to `std::cout` (each ending in the newline of `std::endl`).
* `ValidateOmittedFlag` is the call `Validate(hdr)`, which passes the default
  argument `quiet = true`.
* `Failure`, `Failure.order`, `Failure.violated` and `firstViolated` restate
  the specification's ordered list of checks; `Failure.diagnostic` is the
  table of the lines the source writes, one per check. `Validate` is
  compared with them in `Validate_eq_firstViolated`.
-/

namespace larsyst

/-- Identifier type of a systematic parameter (`paramId_t` of `types.hh`). -/
abbrev paramId_t := Nat

/-- The C++ `double`: an IEEE-754 binary64 value, kept as the 64-bit pattern
`bits % 2 ^ 64` (sign bit, 11 exponent bits, 52 fraction bits). -/
structure double where
  bits : Nat
deriving DecidableEq, Repr

namespace double

/-- The 64-bit pattern of the value. -/
def pattern (x : double) : Nat := x.bits % 2 ^ 64

/-- The biased exponent field (bits 52..62). -/
def exponent (x : double) : Nat := (x.pattern / 2 ^ 52) % 2 ^ 11

/-- The fraction field (bits 0..51). -/
def fraction (x : double) : Nat := x.pattern % 2 ^ 52

/-- A NaN has all exponent bits set and a non-zero fraction. -/
def isNaN (x : double) : Bool := x.exponent == 2047 && x.fraction != 0

/-- Positive or negative zero. -/
def isZero (x : double) : Bool := x.exponent == 0 && x.fraction == 0

/-- The C++ `operator==` on `double`: false as soon as one side is a NaN,
true on two zeros of either sign, and equality of bit patterns otherwise. -/
def eq (x y : double) : Bool :=
  !x.isNaN && !y.isNaN && ((x.isZero && y.isZero) || x.pattern == y.pattern)

/-- Position of the leading one bit of `n` (`0` for `n < 2`), looking at no
more than `fuel` bits. -/
def leadingBit : Nat → Nat → Nat
  | 0, _ => 0
  | fuel + 1, n => if 2 ≤ n then leadingBit fuel (n / 2) + 1 else 0

/-- Conversion of an unsigned integer constant to `double`; exact for every
`n < 2 ^ 53`, the only range it is used on: the exponent field is `1023`
plus the position of the leading one, the fraction the bits below it. -/
def ofNat (n : Nat) : double :=
  if n = 0 then ⟨0⟩
  else ⟨(1023 + leadingBit 64 n) * 2 ^ 52
         + (n - 2 ^ leadingBit 64 n) * 2 ^ (52 - leadingBit 64 n)⟩

end double

/-- The record `struct SystParamHeader`, fields in declaration order. -/
structure SystParamHeader where
  prettyName : String
  systParamId : paramId_t
  isWeightSystematicVariation : Bool
  unitsAreNatural : Bool
  differsEventByEvent : Bool
  centralParamValue : double
  isCorrection : Bool
  oneSigmaShifts : double × double
  paramValidityRange : double × double
  isSplineable : Bool
  isRandomlyThrown : Bool
  paramVariations : List double
  isResponselessParam : Bool
  responseParamId : paramId_t
  responses : List double
  opts : List String
deriving DecidableEq, Repr

set_option linter.dupNamespace false in
/-- The default constructor `SystParamHeader::SystParamHeader()`. -/
def SystParamHeader.SystParamHeader (kParamUnhandled : paramId_t) : SystParamHeader where
  prettyName := ""
  systParamId := kParamUnhandled
  isWeightSystematicVariation := true
  unitsAreNatural := false
  differsEventByEvent := true
  centralParamValue := double.ofNat 0xdeadb33f
  isCorrection := false
  oneSigmaShifts := (double.ofNat 0xdeadb33f, double.ofNat 0xdeadb33f)
  paramValidityRange := (double.ofNat 0xdeadb33f, double.ofNat 0xdeadb33f)
  isSplineable := false
  isRandomlyThrown := false
  paramVariations := []
  isResponselessParam := false
  responseParamId := kParamUnhandled
  responses := []
  opts := []

/-- The text `std::quoted(s)` inserts into a stream: `s` between double
quotes, with a backslash before every double quote and backslash of `s`. -/
def quoted (s : String) : String :=
  String.singleton (Char.ofNat 34)
    ++ String.join (s.toList.map fun c =>
        if c = Char.ofNat 34 ∨ c = Char.ofNat 92 then
          String.singleton (Char.ofNat 92) ++ String.singleton c
        else String.singleton c)
    ++ String.singleton (Char.ofNat 34)

/-- The function `Validate(SystParamHeader const &hdr, bool quiet)`: the
returned `bool`, and the lines written to `std::cout`. -/
def Validate (kParamUnhandled : paramId_t) (hdr : SystParamHeader) (quiet : Bool) :
    Bool × List String := Id.run do
  if hdr.systParamId == kParamUnhandled then
    return (false,
      if !quiet then
        ["[ERROR]: SystParamHeader has the default systParamId." ++ "\n"]
      else [])
  if !(hdr.prettyName.utf8ByteSize != 0) then
    return (false,
      if !quiet then
        ["[ERROR]: SystParamHeader doesn't have a prettyName." ++ "\n"]
      else [])
  if hdr.isCorrection then
    if hdr.centralParamValue.eq (double.ofNat 0xdeadb33f) then
      return (false,
        if !quiet then
          ["[ERROR]: SystParamHeader(" ++ toString hdr.systParamId ++ ":"
            ++ quoted hdr.prettyName
            ++ ") is marked as a correction but the centralParamValue is "
            ++ "defaulted."
            ++ "\n"]
        else [])
    if hdr.paramVariations.length != 0 || hdr.responses.length != 0 then
      return (false,
        if !quiet then
          ["[ERROR]: SystParamHeader(" ++ toString hdr.systParamId ++ ":"
            ++ quoted hdr.prettyName
            ++ ") is marked as a correction but has variations ("
            ++ toString hdr.paramVariations.length ++ ") or responses ("
            ++ toString hdr.responses.length ++ ")" ++ "\n"]
        else [])
  else
    if !(hdr.paramVariations.length != 0) then
      return (false,
        if !quiet then
          ["[ERROR]: SystParamHeader(" ++ toString hdr.systParamId ++ ":"
            ++ quoted hdr.prettyName
            ++ ") is not marked as a correction, but contains no variations."
            ++ "\n"]
        else [])
  if hdr.isSplineable then
    if hdr.isRandomlyThrown then
      return (false,
        if !quiet then
          ["[ERROR]: SystParamHeader(" ++ toString hdr.systParamId ++ ":"
            ++ quoted hdr.prettyName
            ++ ") marked as splineable is also set as randomly thrown."
            ++ "\n"]
        else [])
    if hdr.isResponselessParam then
      return (false,
        if !quiet then
          ["[ERROR]: SystParamHeader(" ++ toString hdr.systParamId ++ ":"
            ++ quoted hdr.prettyName
            ++ ") marked as splineable is also set as expressing "
            ++ "response through another parameter ("
            ++ toString hdr.responseParamId ++ ")." ++ "\n"]
        else [])
  if hdr.isResponselessParam then
    if hdr.responses.length != 0 then
      return (false,
        if !quiet then
          ["[ERROR]: SystParamHeader(" ++ toString hdr.systParamId ++ ":"
            ++ quoted hdr.prettyName
            ++ ") marked as responseless, but also has "
            ++ "header-level responses."
            ++ "\n"]
        else [])
    if hdr.responseParamId == kParamUnhandled then
      return (false,
        if !quiet then
          ["[ERROR]: SystParamHeader(" ++ toString hdr.systParamId ++ ":"
            ++ quoted hdr.prettyName
            ++ ") marked as responseless, but it doesn't have a valid, "
            ++ "associated response parameter."
            ++ "\n"]
        else [])
  if hdr.differsEventByEvent then
    if hdr.responses.length != 0 then
      return (false,
        if !quiet then
          ["[ERROR]: SystParamHeader(" ++ toString hdr.systParamId ++ ":"
            ++ quoted hdr.prettyName
            ++ ") marked as differing event by event, but also has "
            ++ "header-level responses."
            ++ "\n"]
        else [])
  else
    if !(hdr.responses.length != 0) then
      return (false,
        if !quiet then
          ["[ERROR]: SystParamHeader(" ++ toString hdr.systParamId ++ ":"
            ++ quoted hdr.prettyName
            ++ ") marked as not differing event by event, but has no "
            ++ "header-level responses."
            ++ "\n"]
        else [])
    if !hdr.isCorrection && (hdr.responses.length != hdr.paramVariations.length) then
      return (false,
        if !quiet then
          ["[ERROR]: SystParamHeader(" ++ toString hdr.systParamId ++ ":"
            ++ quoted hdr.prettyName
            ++ ") marked as differing event by event, but also has "
            ++ "header-level responses."
            ++ "\n"]
        else [])
  return (true, [])

/-- The call `Validate(hdr)` with the second argument omitted: the
declaration `bool quiet = true` supplies `true`. -/
def ValidateOmittedFlag (kParamUnhandled : paramId_t) (hdr : SystParamHeader) :
    Bool × List String :=
  Validate kParamUnhandled hdr true

/-- The failures of the specification's error taxonomy, one per check. -/
inductive Failure where
  | MissingIdentity
  | MissingName
  | CorrectionMissingCentralValue
  | CorrectionWithVariationsOrResponses
  | NonCorrectionMissingVariations
  | SplineableAlsoRandom
  | SplineableAlsoResponseless
  | ResponselessHasHeaderResponses
  | ResponselessMissingTargetId
  | EventByEventHasHeaderResponses
  | AggregateMissingHeaderResponses
  | AggregateResponseVariationCountMismatch
deriving DecidableEq, Repr

/-- The fixed order of the checks, as the specification lists it: sentinel
id; empty name; correction with sentinel central value; correction with
variations or responses; non-correction without variations; splineable and
randomly thrown; splineable and responseless; responseless with header
responses; responseless without a target id; event-by-event with header
responses; aggregate without header responses; aggregate count mismatch. -/
def Failure.order : List Failure :=
  [.MissingIdentity, .MissingName, .CorrectionMissingCentralValue,
   .CorrectionWithVariationsOrResponses, .NonCorrectionMissingVariations,
   .SplineableAlsoRandom, .SplineableAlsoResponseless,
   .ResponselessHasHeaderResponses, .ResponselessMissingTargetId,
   .EventByEventHasHeaderResponses, .AggregateMissingHeaderResponses,
   .AggregateResponseVariationCountMismatch]

/-- Whether a header violates a check, each check stated on its own in the
words of the specification's rules 1 to 7. -/
def Failure.violated (kParamUnhandled : paramId_t) (hdr : SystParamHeader) : Failure → Bool
  | .MissingIdentity => hdr.systParamId == kParamUnhandled
  | .MissingName => hdr.prettyName == ""
  | .CorrectionMissingCentralValue =>
      hdr.isCorrection && hdr.centralParamValue.eq (double.ofNat 0xdeadb33f)
  | .CorrectionWithVariationsOrResponses =>
      hdr.isCorrection && (!hdr.paramVariations.isEmpty || !hdr.responses.isEmpty)
  | .NonCorrectionMissingVariations => !hdr.isCorrection && hdr.paramVariations.isEmpty
  | .SplineableAlsoRandom => hdr.isSplineable && hdr.isRandomlyThrown
  | .SplineableAlsoResponseless => hdr.isSplineable && hdr.isResponselessParam
  | .ResponselessHasHeaderResponses => hdr.isResponselessParam && !hdr.responses.isEmpty
  | .ResponselessMissingTargetId =>
      hdr.isResponselessParam && hdr.responseParamId == kParamUnhandled
  | .EventByEventHasHeaderResponses => hdr.differsEventByEvent && !hdr.responses.isEmpty
  | .AggregateMissingHeaderResponses => !hdr.differsEventByEvent && hdr.responses.isEmpty
  | .AggregateResponseVariationCountMismatch =>
      !hdr.differsEventByEvent && !hdr.isCorrection
        && hdr.responses.length != hdr.paramVariations.length

/-- The first violated check of a header in the fixed order, if any. -/
def firstViolated (kParamUnhandled : paramId_t) (hdr : SystParamHeader) : Option Failure :=
  Failure.order.find? (Failure.violated kParamUnhandled hdr)

/-- The line `Validate` writes at the `return false` of each check, copied
from the twelve `std::cout` statements of the source in their order. -/
def Failure.diagnostic (hdr : SystParamHeader) : Failure → String
  | .MissingIdentity =>
      "[ERROR]: SystParamHeader has the default systParamId." ++ "\n"
  | .MissingName =>
      "[ERROR]: SystParamHeader doesn't have a prettyName." ++ "\n"
  | .CorrectionMissingCentralValue =>
      "[ERROR]: SystParamHeader(" ++ toString hdr.systParamId ++ ":"
        ++ quoted hdr.prettyName
        ++ ") is marked as a correction but the centralParamValue is "
        ++ "defaulted."
        ++ "\n"
  | .CorrectionWithVariationsOrResponses =>
      "[ERROR]: SystParamHeader(" ++ toString hdr.systParamId ++ ":"
        ++ quoted hdr.prettyName
        ++ ") is marked as a correction but has variations ("
        ++ toString hdr.paramVariations.length ++ ") or responses ("
        ++ toString hdr.responses.length ++ ")" ++ "\n"
  | .NonCorrectionMissingVariations =>
      "[ERROR]: SystParamHeader(" ++ toString hdr.systParamId ++ ":"
        ++ quoted hdr.prettyName
        ++ ") is not marked as a correction, but contains no variations."
        ++ "\n"
  | .SplineableAlsoRandom =>
      "[ERROR]: SystParamHeader(" ++ toString hdr.systParamId ++ ":"
        ++ quoted hdr.prettyName
        ++ ") marked as splineable is also set as randomly thrown."
        ++ "\n"
  | .SplineableAlsoResponseless =>
      "[ERROR]: SystParamHeader(" ++ toString hdr.systParamId ++ ":"
        ++ quoted hdr.prettyName
        ++ ") marked as splineable is also set as expressing "
        ++ "response through another parameter ("
        ++ toString hdr.responseParamId ++ ")." ++ "\n"
  | .ResponselessHasHeaderResponses =>
      "[ERROR]: SystParamHeader(" ++ toString hdr.systParamId ++ ":"
        ++ quoted hdr.prettyName
        ++ ") marked as responseless, but also has "
        ++ "header-level responses."
        ++ "\n"
  | .ResponselessMissingTargetId =>
      "[ERROR]: SystParamHeader(" ++ toString hdr.systParamId ++ ":"
        ++ quoted hdr.prettyName
        ++ ") marked as responseless, but it doesn't have a valid, "
        ++ "associated response parameter."
        ++ "\n"
  | .EventByEventHasHeaderResponses =>
      "[ERROR]: SystParamHeader(" ++ toString hdr.systParamId ++ ":"
        ++ quoted hdr.prettyName
        ++ ") marked as differing event by event, but also has "
        ++ "header-level responses."
        ++ "\n"
  | .AggregateMissingHeaderResponses =>
      "[ERROR]: SystParamHeader(" ++ toString hdr.systParamId ++ ":"
        ++ quoted hdr.prettyName
        ++ ") marked as not differing event by event, but has no "
        ++ "header-level responses."
        ++ "\n"
  | .AggregateResponseVariationCountMismatch =>
      "[ERROR]: SystParamHeader(" ++ toString hdr.systParamId ++ ":"
        ++ quoted hdr.prettyName
        ++ ") marked as differing event by event, but also has "
        ++ "header-level responses."
        ++ "\n"

/-! Supporting lemmas. -/

/-- A `std::string` has size zero exactly when it is the empty string. -/
theorem utf8ByteSize_eq_zero_iff (s : String) : s.utf8ByteSize = 0 ↔ s = "" := by
  constructor
  · intro h
    cases s with
    | mk cs =>
      cases cs with
      | nil => rfl
      | cons c cs =>
        have hc := Char.utf8Size_pos c
        simp only [String.utf8ByteSize, String.utf8ByteSize.go] at h
        omega
  · rintro rfl
    rfl

/-- The integer constant `0xdeadb33f` converts to the `double` with bit
pattern `0x41EBD5B667E00000` (exponent field `1023 + 31`). -/
theorem ofNat_deadb33f : double.ofNat 0xdeadb33f = ⟨0x41EBD5B667E00000⟩ := by
  decide

/-- Comparing a `double` with the constant `0xdeadb33f` is comparing bit
patterns: the constant is neither a NaN nor a zero. -/
theorem eq_deadb33f_iff (x : double) :
    x.eq (double.ofNat 0xdeadb33f) = true ↔ x.bits % 2 ^ 64 = 0x41EBD5B667E00000 := by
  rw [ofNat_deadb33f]
  constructor
  · intro h
    simp only [double.eq, double.isNaN, double.isZero, double.exponent, double.fraction,
      double.pattern, Bool.and_eq_true, Bool.or_eq_true, Bool.not_eq_true', beq_iff_eq,
      bne_iff_ne, Bool.and_eq_false_iff, beq_eq_false_iff_ne, bne_eq_false_iff_eq] at h
    omega
  · intro h
    simp only [double.eq, double.isNaN, double.isZero, double.exponent, double.fraction,
      double.pattern, h]
    decide

/-- The `bool` returned by `Validate`, check by check, in terms of the sizes
the code inspects. -/
theorem Validate_fst_eq_true_iff (kParamUnhandled : paramId_t) (hdr : SystParamHeader)
    (quiet : Bool) :
    (Validate kParamUnhandled hdr quiet).1 = true ↔
      hdr.systParamId ≠ kParamUnhandled ∧
      hdr.prettyName.utf8ByteSize ≠ 0 ∧
      (if hdr.isCorrection = true then
        hdr.centralParamValue.eq (double.ofNat 0xdeadb33f) = false ∧
          hdr.paramVariations.length = 0 ∧ hdr.responses.length = 0
       else hdr.paramVariations.length ≠ 0) ∧
      (hdr.isSplineable = true →
        hdr.isRandomlyThrown = false ∧ hdr.isResponselessParam = false) ∧
      (hdr.isResponselessParam = true →
        hdr.responses.length = 0 ∧ hdr.responseParamId ≠ kParamUnhandled) ∧
      (if hdr.differsEventByEvent = true then hdr.responses.length = 0
       else hdr.responses.length ≠ 0 ∧
        (hdr.isCorrection = false → hdr.responses.length = hdr.paramVariations.length)) := by
  unfold Validate
  simp only [Id.run, Id.instMonad, Id.pure_eq, Id.bind_eq, apply_ite Prod.fst]
  generalize hdr.centralParamValue.eq (double.ofNat 0xdeadb33f) = c
  generalize hdr.paramVariations.length = nv
  generalize hdr.responses.length = nr
  generalize hdr.prettyName.utf8ByteSize = np
  generalize hdr.systParamId = i
  generalize hdr.responseParamId = j
  by_cases h1 : i = kParamUnhandled
  · simp [h1]
  by_cases h2 : np = 0
  · simp [h1, h2]
  cases hdr.isCorrection <;> cases hdr.isSplineable <;> cases hdr.isRandomlyThrown <;>
    cases hdr.isResponselessParam <;> cases hdr.differsEventByEvent <;> cases c <;>
    simp [h1, h2, and_assoc]

/-- The whole result of `Validate`: it returns at the first violated check of
the fixed order, writing the line of that check unless `quiet`, and returns
true without writing when no check is violated. -/
theorem Validate_eq_firstViolated (kParamUnhandled : paramId_t) (hdr : SystParamHeader)
    (quiet : Bool) :
    Validate kParamUnhandled hdr quiet =
      match firstViolated kParamUnhandled hdr with
      | none => (true, [])
      | some f => (false, if !quiet then [f.diagnostic hdr] else []) := by
  have hn : (hdr.prettyName == "") = !(hdr.prettyName.utf8ByteSize != 0) := by
    rw [Bool.eq_iff_iff]; simp [utf8ByteSize_eq_zero_iff]
  have hv : hdr.paramVariations.isEmpty = !(hdr.paramVariations.length != 0) := by
    cases hdr.paramVariations <;> simp
  have hr : hdr.responses.isEmpty = !(hdr.responses.length != 0) := by
    cases hdr.responses <;> simp
  unfold Validate firstViolated Failure.order
  simp only [Id.run, Id.instMonad, Id.pure_eq, Id.bind_eq, List.find?, Failure.violated,
    Failure.diagnostic, hn, hv, hr]
  generalize (hdr.systParamId == kParamUnhandled) = a1
  generalize (hdr.prettyName.utf8ByteSize != 0) = a2
  generalize hdr.centralParamValue.eq (double.ofNat 0xdeadb33f) = c
  generalize (hdr.paramVariations.length != 0) = av
  generalize (hdr.responses.length != 0) = ar
  generalize (hdr.responseParamId == kParamUnhandled) = aj
  generalize (hdr.responses.length != hdr.paramVariations.length) = am
  cases a1 <;> try (simp; done)
  cases a2 <;> try (simp; done)
  cases hdr.isCorrection <;> cases c <;> cases av <;> cases ar <;> try (simp; done)
  all_goals (cases hdr.isSplineable <;> cases hdr.isRandomlyThrown <;>
    cases hdr.isResponselessParam <;> try (simp; done))
  all_goals (cases aj <;> cases hdr.differsEventByEvent <;> cases am <;> simp)

/-- The lines written by `Validate`: none when `quiet`, none on acceptance,
one on rejection otherwise. -/
theorem Validate_snd_length (kParamUnhandled : paramId_t) (hdr : SystParamHeader)
    (quiet : Bool) :
    (Validate kParamUnhandled hdr quiet).2.length =
      if quiet = false ∧ (Validate kParamUnhandled hdr quiet).1 = false then 1 else 0 := by
  rw [Validate_eq_firstViolated]
  cases firstViolated kParamUnhandled hdr <;> cases quiet <;> simp

/-- Every line of the source starts with the error tag. -/
theorem diagnostic_error_tag (hdr : SystParamHeader) (f : Failure) :
    ∃ rest : String, f.diagnostic hdr = "[ERROR]: SystParamHeader" ++ rest := by
  have hopen : "[ERROR]: SystParamHeader(" = "[ERROR]: SystParamHeader" ++ "(" := by decide
  cases f <;> simp only [Failure.diagnostic, hopen, String.append_assoc] <;>
    exact ⟨_, rfl⟩

/-! The acceptance criterion of `Validate`. -/

/-- Claim C1: `Validate` returns true exactly when the seven rules hold
together: (1) the id is not the unhandled sentinel; (2) the name is not
empty; (3) a correction has a central value other than `0xdeadb33f` and
neither variations nor responses; (4) a non-correction has a variation;
(5) a splineable header is neither randomly thrown nor responseless; (6) a
responseless header has no responses and a response id other than the
sentinel; (7) an event-by-event header has no responses, any other header
has responses and, unless it is a correction, as many as variations. -/
theorem Validate_iff_seven_rules (kParamUnhandled : paramId_t) (hdr : SystParamHeader)
    (quiet : Bool) :
    (Validate kParamUnhandled hdr quiet).1 = true ↔
      hdr.systParamId ≠ kParamUnhandled ∧
      hdr.prettyName ≠ "" ∧
      (hdr.isCorrection = true →
        hdr.centralParamValue.eq (double.ofNat 0xdeadb33f) = false ∧
          hdr.paramVariations = [] ∧ hdr.responses = []) ∧
      (hdr.isCorrection = false → hdr.paramVariations ≠ []) ∧
      (hdr.isSplineable = true →
        hdr.isRandomlyThrown = false ∧ hdr.isResponselessParam = false) ∧
      (hdr.isResponselessParam = true →
        hdr.responses = [] ∧ hdr.responseParamId ≠ kParamUnhandled) ∧
      (if hdr.differsEventByEvent = true then hdr.responses = []
       else hdr.responses ≠ [] ∧
        (hdr.isCorrection = false →
          hdr.responses.length = hdr.paramVariations.length)) := by
  rw [Validate_fst_eq_true_iff]
  simp only [ne_eq, utf8ByteSize_eq_zero_iff, List.length_eq_zero]
  cases hdr.isCorrection <;> simp

/-- Claim C2: a header whose `systParamId` is the unhandled sentinel is
rejected, whatever its other fields and the value of `quiet`. -/
theorem Validate_unhandled_id (kParamUnhandled : paramId_t) (hdr : SystParamHeader)
    (quiet : Bool) (hid : hdr.systParamId = kParamUnhandled) :
    (Validate kParamUnhandled hdr quiet).1 = false := by
  rw [← Bool.not_eq_true, Validate_fst_eq_true_iff]
  exact fun h => h.1 hid

/-- Witness of claim C2: a header with a name, a variation and the sentinel
id `4294967295` is rejected. -/
theorem Validate_unhandled_id_witness :
    ({ SystParamHeader.SystParamHeader 4294967295 with
        prettyName := "MaCCQE", paramVariations := [double.ofNat 1] }
        : SystParamHeader).systParamId = 4294967295 ∧
      (Validate 4294967295
        { SystParamHeader.SystParamHeader 4294967295 with
          prettyName := "MaCCQE", paramVariations := [double.ofNat 1] } true).1 = false :=
  ⟨rfl, Validate_unhandled_id 4294967295 _ true rfl⟩

/-- Claim C3: a header whose `prettyName` is the empty string is rejected,
whatever its other fields, a valid `systParamId` included. -/
theorem Validate_empty_prettyName (kParamUnhandled : paramId_t) (hdr : SystParamHeader)
    (quiet : Bool) (hname : hdr.prettyName = "") :
    (Validate kParamUnhandled hdr quiet).1 = false := by
  rw [← Bool.not_eq_true, Validate_fst_eq_true_iff]
  exact fun h => h.2.1 ((utf8ByteSize_eq_zero_iff _).2 hname)

/-- Witness of claim C3: a header with the valid id `7`, a variation and an
empty name is rejected. -/
theorem Validate_empty_prettyName_witness :
    ({ SystParamHeader.SystParamHeader 4294967295 with
        systParamId := 7, paramVariations := [double.ofNat 1] }
        : SystParamHeader).prettyName = "" ∧
      (Validate 4294967295
        { SystParamHeader.SystParamHeader 4294967295 with
          systParamId := 7, paramVariations := [double.ofNat 1] } false).1 = false :=
  ⟨rfl, Validate_empty_prettyName 4294967295 _ false rfl⟩

/-- Claim C4: the default-constructed header has sentinel ids, an empty
name, `differsEventByEvent` and `isWeightSystematicVariation` true, empty
variations, responses and options, `0xdeadb33f` as central value and in both
pairs, and every other flag false; `Validate` returns false on it, and it
returns at its first check: with `quiet` false the one line written is that
of the default `systParamId`. -/
theorem Validate_default_header (kParamUnhandled : paramId_t) (quiet : Bool) :
    SystParamHeader.SystParamHeader kParamUnhandled =
        { prettyName := "", systParamId := kParamUnhandled,
          isWeightSystematicVariation := true, unitsAreNatural := false,
          differsEventByEvent := true, centralParamValue := double.ofNat 0xdeadb33f,
          isCorrection := false,
          oneSigmaShifts := (double.ofNat 0xdeadb33f, double.ofNat 0xdeadb33f),
          paramValidityRange := (double.ofNat 0xdeadb33f, double.ofNat 0xdeadb33f),
          isSplineable := false, isRandomlyThrown := false, paramVariations := [],
          isResponselessParam := false, responseParamId := kParamUnhandled,
          responses := [], opts := [] } ∧
      Validate kParamUnhandled (SystParamHeader.SystParamHeader kParamUnhandled) quiet =
        (false,
          if quiet = false then
            ["[ERROR]: SystParamHeader has the default systParamId.\n"]
          else []) := by
  refine ⟨rfl, ?_⟩
  unfold Validate
  cases quiet <;> simp [Id.run, SystParamHeader.SystParamHeader]

/-- Claim C5: a correction header is accepted: valid id, non-empty name,
`isCorrection`, a central value other than `0xdeadb33f`, no variations, no
responses, and every other field as the default constructor leaves it. -/
theorem Validate_correction_accepted (kParamUnhandled id : paramId_t) (name : String)
    (central : double) (quiet : Bool) (hid : id ≠ kParamUnhandled) (hname : name ≠ "")
    (hcentral : central.eq (double.ofNat 0xdeadb33f) = false) :
    (Validate kParamUnhandled
      { SystParamHeader.SystParamHeader kParamUnhandled with
        systParamId := id, prettyName := name, isCorrection := true,
        centralParamValue := central, paramVariations := [], responses := [] }
      quiet).1 = true := by
  rw [Validate_fst_eq_true_iff]
  simp [SystParamHeader.SystParamHeader, hid, hname, hcentral, utf8ByteSize_eq_zero_iff]

/-- Witness of claim C5: the correction `"norm"` with id `3` and central
value `1.0` is accepted. -/
theorem Validate_correction_accepted_witness :
    (3 : paramId_t) ≠ 4294967295 ∧ "norm" ≠ "" ∧
      (double.ofNat 1).eq (double.ofNat 0xdeadb33f) = false ∧
      (Validate 4294967295
        { SystParamHeader.SystParamHeader 4294967295 with
          systParamId := 3, prettyName := "norm", isCorrection := true,
          centralParamValue := double.ofNat 1, paramVariations := [], responses := [] }
        false).1 = true :=
  ⟨by decide, by decide, by decide,
    Validate_correction_accepted 4294967295 3 "norm" (double.ofNat 1) false
      (by decide) (by decide) (by decide)⟩

/-- Claim C6: a header marked as a correction is rejected as soon as its
central value is `0xdeadb33f`, or it has a variation, or it has a response,
whatever its other fields; in particular it is rejected once a variation is
appended to it. -/
theorem Validate_correction_rejected (kParamUnhandled : paramId_t) (hdr : SystParamHeader)
    (quiet : Bool) (hcorr : hdr.isCorrection = true) :
    ((hdr.centralParamValue.eq (double.ofNat 0xdeadb33f) = true ∨
        hdr.paramVariations ≠ [] ∨ hdr.responses ≠ []) →
      (Validate kParamUnhandled hdr quiet).1 = false) ∧
    (∀ v : double,
      (Validate kParamUnhandled
        { hdr with paramVariations := hdr.paramVariations ++ [v] } quiet).1 = false) := by
  constructor
  · intro h
    rw [← Bool.not_eq_true, Validate_fst_eq_true_iff]
    simp only [hcorr, if_true, List.length_eq_zero]
    rintro ⟨-, -, ⟨hc, hv, hr⟩, -⟩
    rcases h with h | h | h
    · rw [hc] at h
      exact Bool.false_ne_true h
    · exact h hv
    · exact h hr
  · intro v
    rw [← Bool.not_eq_true, Validate_fst_eq_true_iff]
    simp [hcorr]

/-- Witness of claim C6: the accepted correction `"norm"` (id `3`, central
value `1.0`) is rejected once it carries a variation. -/
theorem Validate_correction_rejected_witness :
    (({ SystParamHeader.SystParamHeader 4294967295 with
          systParamId := 3, prettyName := "norm", isCorrection := true,
          centralParamValue := double.ofNat 1 } : SystParamHeader).isCorrection = true) ∧
      (Validate 4294967295
        { SystParamHeader.SystParamHeader 4294967295 with
          systParamId := 3, prettyName := "norm", isCorrection := true,
          centralParamValue := double.ofNat 1 } true).1 = true ∧
      (Validate 4294967295
        { SystParamHeader.SystParamHeader 4294967295 with
          systParamId := 3, prettyName := "norm", isCorrection := true,
          centralParamValue := double.ofNat 1,
          paramVariations := [] ++ [double.ofNat 2] } true).1 = false :=
  ⟨rfl, by decide,
    (Validate_correction_rejected 4294967295
      { SystParamHeader.SystParamHeader 4294967295 with
        systParamId := 3, prettyName := "norm", isCorrection := true,
        centralParamValue := double.ofNat 1 } true rfl).2 (double.ofNat 2)⟩

/-- Claim C7: for a header with valid id, non-empty name, `isCorrection`
false, `differsEventByEvent` true, no responses, and `isSplineable`,
`isRandomlyThrown`, `isResponselessParam` all false, `Validate` returns true
exactly when there is a variation. -/
theorem Validate_event_by_event_iff (kParamUnhandled : paramId_t) (hdr : SystParamHeader)
    (quiet : Bool) (hid : hdr.systParamId ≠ kParamUnhandled) (hname : hdr.prettyName ≠ "")
    (hcorr : hdr.isCorrection = false) (hdiff : hdr.differsEventByEvent = true)
    (hresp : hdr.responses = []) (hspl : hdr.isSplineable = false)
    (_hthrown : hdr.isRandomlyThrown = false) (hless : hdr.isResponselessParam = false) :
    (Validate kParamUnhandled hdr quiet).1 = true ↔ hdr.paramVariations ≠ [] := by
  rw [Validate_fst_eq_true_iff]
  simp [hid, hname, hcorr, hdiff, hresp, hspl, hless, utf8ByteSize_eq_zero_iff]

/-- Witness of claim C7: the event-by-event header `"MaCCQE"` with id `0` is
rejected without variations and accepted with one. -/
theorem Validate_event_by_event_iff_witness :
    (Validate 4294967295
        { SystParamHeader.SystParamHeader 4294967295 with
          systParamId := 0, prettyName := "MaCCQE" } true).1 = false ∧
      ((Validate 4294967295
        { SystParamHeader.SystParamHeader 4294967295 with
          systParamId := 0, prettyName := "MaCCQE",
          paramVariations := [double.ofNat 1] } true).1 = true ↔
        ([double.ofNat 1] : List double) ≠ []) :=
  ⟨by decide,
    Validate_event_by_event_iff 4294967295
      { SystParamHeader.SystParamHeader 4294967295 with
        systParamId := 0, prettyName := "MaCCQE", paramVariations := [double.ofNat 1] }
      true (by decide) (by decide) rfl rfl rfl rfl rfl rfl⟩

/-- Claim C8: a header marked splineable and also randomly thrown or
responseless is rejected, whatever its other fields. -/
theorem Validate_splineable_exclusive (kParamUnhandled : paramId_t) (hdr : SystParamHeader)
    (quiet : Bool) (hspl : hdr.isSplineable = true)
    (h : hdr.isRandomlyThrown = true ∨ hdr.isResponselessParam = true) :
    (Validate kParamUnhandled hdr quiet).1 = false := by
  rw [← Bool.not_eq_true, Validate_fst_eq_true_iff]
  rintro ⟨-, -, -, hrule, -⟩
  have h5 := hrule hspl
  rcases h with h | h
  · rw [h5.1] at h
    exact Bool.false_ne_true h
  · rw [h5.2] at h
    exact Bool.false_ne_true h

/-- Witness of claim C8: a splineable, randomly thrown header that meets
every other rule is rejected. -/
theorem Validate_splineable_exclusive_witness :
    (({ SystParamHeader.SystParamHeader 4294967295 with
          systParamId := 0, prettyName := "MaCCQE", isSplineable := true,
          isRandomlyThrown := true, paramVariations := [double.ofNat 1] }
          : SystParamHeader).isSplineable = true) ∧
      (Validate 4294967295
        { SystParamHeader.SystParamHeader 4294967295 with
          systParamId := 0, prettyName := "MaCCQE", isSplineable := true,
          isRandomlyThrown := true, paramVariations := [double.ofNat 1] } true).1 = false :=
  ⟨rfl, Validate_splineable_exclusive 4294967295 _ true rfl (Or.inl rfl)⟩

/-- Claim C9: for a header with valid id, non-empty name, `isCorrection`
false, `differsEventByEvent` false, a variation, and `isSplineable`,
`isRandomlyThrown`, `isResponselessParam` all false, `Validate` returns true
exactly when there are as many responses as variations. -/
theorem Validate_aggregate_iff (kParamUnhandled : paramId_t) (hdr : SystParamHeader)
    (quiet : Bool) (hid : hdr.systParamId ≠ kParamUnhandled) (hname : hdr.prettyName ≠ "")
    (hcorr : hdr.isCorrection = false) (hdiff : hdr.differsEventByEvent = false)
    (hvar : hdr.paramVariations ≠ []) (hspl : hdr.isSplineable = false)
    (_hthrown : hdr.isRandomlyThrown = false) (hless : hdr.isResponselessParam = false) :
    (Validate kParamUnhandled hdr quiet).1 = true ↔
      hdr.responses.length = hdr.paramVariations.length := by
  rw [Validate_fst_eq_true_iff]
  have hv : hdr.paramVariations.length ≠ 0 := fun h => hvar (List.length_eq_zero.1 h)
  simp only [hid, hname, hcorr, hdiff, hspl, hless, ne_eq, utf8ByteSize_eq_zero_iff,
    not_false_eq_true, true_and, Bool.false_eq_true, if_false, hv, false_implies,
    true_implies]
  omega

/-- Witness of claim C9: with three variations, two responses are rejected
and three responses are accepted. -/
theorem Validate_aggregate_iff_witness :
    (Validate 4294967295
        { SystParamHeader.SystParamHeader 4294967295 with
          systParamId := 0, prettyName := "norm", differsEventByEvent := false,
          paramVariations := [double.ofNat 1, double.ofNat 2, double.ofNat 3],
          responses := [double.ofNat 1, double.ofNat 1] } true).1 = false ∧
      ((Validate 4294967295
        { SystParamHeader.SystParamHeader 4294967295 with
          systParamId := 0, prettyName := "norm", differsEventByEvent := false,
          paramVariations := [double.ofNat 1, double.ofNat 2, double.ofNat 3],
          responses := [double.ofNat 1, double.ofNat 1, double.ofNat 1] } true).1 = true ↔
        [double.ofNat 1, double.ofNat 1, double.ofNat 1].length
          = [double.ofNat 1, double.ofNat 2, double.ofNat 3].length) :=
  ⟨by decide,
    Validate_aggregate_iff 4294967295
      { SystParamHeader.SystParamHeader 4294967295 with
        systParamId := 0, prettyName := "norm", differsEventByEvent := false,
        paramVariations := [double.ofNat 1, double.ofNat 2, double.ofNat 3],
        responses := [double.ofNat 1, double.ofNat 1, double.ofNat 1] }
      true (by decide) (by decide) rfl rfl (by decide) rfl rfl rfl⟩

/-- Claim C10: for a responseless header with valid id, non-empty name, no
responses, that meets the correction or variation rule, the splineable rule
and the event-by-event rule, `Validate` returns false when `responseParamId`
is the unhandled sentinel and true when it is any other id. -/
theorem Validate_responseless (kParamUnhandled : paramId_t) (hdr : SystParamHeader)
    (quiet : Bool) (hless : hdr.isResponselessParam = true)
    (hid : hdr.systParamId ≠ kParamUnhandled) (hname : hdr.prettyName ≠ "")
    (hresp : hdr.responses = [])
    (hrule3 : hdr.isCorrection = true →
      hdr.centralParamValue.eq (double.ofNat 0xdeadb33f) = false ∧
        hdr.paramVariations = [] ∧ hdr.responses = [])
    (hrule4 : hdr.isCorrection = false → hdr.paramVariations ≠ [])
    (hrule5 : hdr.isSplineable = true →
      hdr.isRandomlyThrown = false ∧ hdr.isResponselessParam = false)
    (hrule7 : if hdr.differsEventByEvent = true then hdr.responses = []
      else hdr.responses ≠ [] ∧
        (hdr.isCorrection = false →
          hdr.responses.length = hdr.paramVariations.length)) :
    (hdr.responseParamId = kParamUnhandled →
        (Validate kParamUnhandled hdr quiet).1 = false) ∧
      (hdr.responseParamId ≠ kParamUnhandled →
        (Validate kParamUnhandled hdr quiet).1 = true) := by
  have hcrit := Validate_fst_eq_true_iff kParamUnhandled hdr quiet
  have hname0 : hdr.prettyName.utf8ByteSize ≠ 0 :=
    fun h => hname ((utf8ByteSize_eq_zero_iff _).1 h)
  constructor
  · intro hsent
    rw [← Bool.not_eq_true, hcrit]
    rintro ⟨-, -, -, -, h6, -⟩
    exact (h6 hless).2 hsent
  · intro hother
    rw [hcrit]
    refine ⟨hid, hname0, ?_, hrule5, fun _ => ⟨by simp [hresp], hother⟩, ?_⟩
    · cases hc : hdr.isCorrection
      · simpa [hc] using hrule4 hc
      · simpa [hc] using hrule3 hc
    · cases hd : hdr.differsEventByEvent
      · simp [hd, hresp] at hrule7
      · simp [hresp]

/-- Witness of claim C10: a responseless, event-by-event header with one
variation is rejected with the sentinel as `responseParamId` and accepted
with `responseParamId` set to `5`. -/
theorem Validate_responseless_witness :
    (Validate 4294967295
        { SystParamHeader.SystParamHeader 4294967295 with
          systParamId := 4, prettyName := "p2", isResponselessParam := true,
          paramVariations := [double.ofNat 1] } true).1 = false ∧
      (Validate 4294967295
        { SystParamHeader.SystParamHeader 4294967295 with
          systParamId := 4, prettyName := "p2", isResponselessParam := true,
          responseParamId := 5, paramVariations := [double.ofNat 1] } true).1 = true :=
  ⟨(Validate_responseless 4294967295
      { SystParamHeader.SystParamHeader 4294967295 with
        systParamId := 4, prettyName := "p2", isResponselessParam := true,
        paramVariations := [double.ofNat 1] }
      true rfl (by decide) (by decide) rfl (by decide) (by decide) (by decide)
      (by decide)).1 rfl,
    (Validate_responseless 4294967295
      { SystParamHeader.SystParamHeader 4294967295 with
        systParamId := 4, prettyName := "p2", isResponselessParam := true,
        responseParamId := 5, paramVariations := [double.ofNat 1] }
      true rfl (by decide) (by decide) rfl (by decide) (by decide) (by decide)
      (by decide)).2 (by decide)⟩

/-! The diagnostics of `Validate`. -/

/-- Claim C11: the `bool` returned by `Validate` is the same with `quiet`
true and with `quiet` false, for every header. -/
theorem Validate_result_independent_of_quiet (kParamUnhandled : paramId_t)
    (hdr : SystParamHeader) :
    (Validate kParamUnhandled hdr true).1 = (Validate kParamUnhandled hdr false).1 := by
  rw [Bool.eq_iff_iff, Validate_fst_eq_true_iff, Validate_fst_eq_true_iff]

/-- Claim C12: with diagnostics disabled (`quiet` true) `Validate` writes
nothing for any header; with diagnostics enabled (`quiet` false) it writes
nothing when it returns true and exactly one line when it returns false; a
line it writes starts with the error tag. -/
theorem Validate_writes_iff_rejected_and_not_quiet (kParamUnhandled : paramId_t)
    (hdr : SystParamHeader) :
    (Validate kParamUnhandled hdr true).2 = [] ∧
      (Validate kParamUnhandled hdr false).2.length =
        (if (Validate kParamUnhandled hdr false).1 = true then 0 else 1) ∧
      ∀ quiet : Bool, ∀ line ∈ (Validate kParamUnhandled hdr quiet).2,
        ∃ rest : String, line = "[ERROR]: SystParamHeader" ++ rest := by
  refine ⟨?_, ?_, ?_⟩
  · rw [← List.length_eq_zero, Validate_snd_length]
    simp
  · rw [Validate_snd_length]
    cases (Validate kParamUnhandled hdr false).1 <;> simp
  · intro quiet line hline
    rw [Validate_eq_firstViolated] at hline
    cases hf : firstViolated kParamUnhandled hdr with
    | none => simp [hf] at hline
    | some f =>
      cases quiet
      · simp only [hf, Bool.not_false, if_true, List.mem_singleton] at hline
        rw [hline]
        exact diagnostic_error_tag hdr f
      · simp [hf] at hline

/-- Counterexample to claim C13: the header with id `7` and an empty name
violates the name check; called with the header alone, `Validate` returns
false and writes nothing, while the line of that check is written only by
the call with `quiet` false. -/
theorem ValidateOmittedFlag_writes_nothing_counterexample :
    (ValidateOmittedFlag 4294967295
        { SystParamHeader.SystParamHeader 4294967295 with systParamId := 7 }).1 = false ∧
      (ValidateOmittedFlag 4294967295
        { SystParamHeader.SystParamHeader 4294967295 with systParamId := 7 }).2 = [] ∧
      (Validate 4294967295
        { SystParamHeader.SystParamHeader 4294967295 with systParamId := 7 } false).2 =
        ["[ERROR]: SystParamHeader doesn't have a prettyName.\n"] := by
  decide

/-- Claim C13, amended: the flag is `quiet` and defaults to true; called
with the header alone, `Validate` writes nothing for any header and returns
the `bool` of the call with the flag given; the line of a violated check is
written by the call with `quiet` false. -/
theorem ValidateOmittedFlag_is_quiet (kParamUnhandled : paramId_t) (hdr : SystParamHeader) :
    ValidateOmittedFlag kParamUnhandled hdr =
        ((Validate kParamUnhandled hdr false).1, []) ∧
      (Validate kParamUnhandled hdr false).2.length =
        (if (Validate kParamUnhandled hdr false).1 = true then 0 else 1) := by
  constructor
  · unfold ValidateOmittedFlag
    rw [Validate_eq_firstViolated, Validate_eq_firstViolated]
    cases firstViolated kParamUnhandled hdr <;> simp
  · rw [Validate_snd_length]
    cases (Validate kParamUnhandled hdr false).1 <;> simp

/-- Claim C14: with diagnostics enabled, `Validate` reports the first
violated check of the fixed order (sentinel id; empty name; correction with
sentinel central value; correction with variations or responses;
non-correction without variations; splineable and randomly thrown;
splineable and responseless; responseless with header responses;
responseless without a target id; event-by-event with header responses;
aggregate without header responses; aggregate count mismatch): it writes the
line of that check and returns false, and accepts when no check is violated.
A correction header with `differsEventByEvent` false and responses is never
reported under an event-by-event or aggregate check, and with a valid id and
name it is reported under one of the two correction checks. -/
theorem Validate_reports_first_violated (kParamUnhandled : paramId_t)
    (hdr : SystParamHeader) :
    (Validate kParamUnhandled hdr false =
        match firstViolated kParamUnhandled hdr with
        | none => (true, [])
        | some f => (false, [f.diagnostic hdr])) ∧
      (hdr.isCorrection = true ∧ hdr.differsEventByEvent = false ∧ hdr.responses ≠ [] →
        firstViolated kParamUnhandled hdr ≠ some .EventByEventHasHeaderResponses ∧
        firstViolated kParamUnhandled hdr ≠ some .AggregateMissingHeaderResponses ∧
        firstViolated kParamUnhandled hdr ≠ some .AggregateResponseVariationCountMismatch ∧
        (hdr.systParamId ≠ kParamUnhandled ∧ hdr.prettyName ≠ "" →
          firstViolated kParamUnhandled hdr = some .CorrectionMissingCentralValue ∨
          firstViolated kParamUnhandled hdr = some .CorrectionWithVariationsOrResponses)) := by
  constructor
  · rw [Validate_eq_firstViolated]
    cases firstViolated kParamUnhandled hdr <;> simp
  · rintro ⟨hcorr, hdiff, hresp⟩
    have hr : hdr.responses.isEmpty = false := by
      cases h : hdr.responses with
      | nil => exact absurd h hresp
      | cons a l => rfl
    unfold firstViolated Failure.order
    simp only [List.find?, Failure.violated, hcorr, hdiff, hr]
    cases h1 : (hdr.systParamId == kParamUnhandled) <;>
      cases h2 : (hdr.prettyName == "") <;>
      cases hdr.centralParamValue.eq (double.ofNat 0xdeadb33f) <;> simp_all

/-- Witness of claim C14: the correction `"norm"` with id `3`, central value
`1.0`, `differsEventByEvent` false and one response violates the correction
check and the aggregate count check; the line written is that of the
correction check. -/
theorem Validate_reports_first_violated_witness :
    Validate 4294967295
        { SystParamHeader.SystParamHeader 4294967295 with
          systParamId := 3, prettyName := "norm", isCorrection := true,
          differsEventByEvent := false, centralParamValue := double.ofNat 1,
          responses := [double.ofNat 1] } false =
      (false, ["[ERROR]: SystParamHeader(3:\"norm\") is marked as a correction but has "
        ++ "variations (0) or responses (1)\n"]) ∧
      firstViolated 4294967295
        { SystParamHeader.SystParamHeader 4294967295 with
          systParamId := 3, prettyName := "norm", isCorrection := true,
          differsEventByEvent := false, centralParamValue := double.ofNat 1,
          responses := [double.ofNat 1] } = some .CorrectionWithVariationsOrResponses :=
  ⟨((Validate_reports_first_violated 4294967295
      { SystParamHeader.SystParamHeader 4294967295 with
        systParamId := 3, prettyName := "norm", isCorrection := true,
        differsEventByEvent := false, centralParamValue := double.ofNat 1,
        responses := [double.ofNat 1] }).1).trans (by decide), by decide⟩

/-- Claim C15, evaluated on the code: with diagnostics enabled, the aggregate
header `"norm"` (id `0`, `differsEventByEvent` false, three variations, two
responses) is rejected by the count check and the same header with
`differsEventByEvent` true by the event-by-event check, and `Validate`
writes the same line for both. -/
theorem Validate_count_mismatch_line_is_event_by_event_line :
    firstViolated 4294967295
        { SystParamHeader.SystParamHeader 4294967295 with
          systParamId := 0, prettyName := "norm", differsEventByEvent := false,
          paramVariations := [double.ofNat 1, double.ofNat 2, double.ofNat 3],
          responses := [double.ofNat 1, double.ofNat 1] }
        = some .AggregateResponseVariationCountMismatch ∧
      firstViolated 4294967295
        { SystParamHeader.SystParamHeader 4294967295 with
          systParamId := 0, prettyName := "norm", differsEventByEvent := true,
          paramVariations := [double.ofNat 1, double.ofNat 2, double.ofNat 3],
          responses := [double.ofNat 1, double.ofNat 1] }
        = some .EventByEventHasHeaderResponses ∧
      Validate 4294967295
        { SystParamHeader.SystParamHeader 4294967295 with
          systParamId := 0, prettyName := "norm", differsEventByEvent := false,
          paramVariations := [double.ofNat 1, double.ofNat 2, double.ofNat 3],
          responses := [double.ofNat 1, double.ofNat 1] } false =
        (false, ["[ERROR]: SystParamHeader(0:\"norm\") marked as differing event by event, "
          ++ "but also has header-level responses.\n"]) ∧
      Validate 4294967295
        { SystParamHeader.SystParamHeader 4294967295 with
          systParamId := 0, prettyName := "norm", differsEventByEvent := true,
          paramVariations := [double.ofNat 1, double.ofNat 2, double.ofNat 3],
          responses := [double.ofNat 1, double.ofNat 1] } false =
        (false, ["[ERROR]: SystParamHeader(0:\"norm\") marked as differing event by event, "
          ++ "but also has header-level responses.\n"]) := by
  decide

/-! Invariants of accepted headers. -/

/-- Counterexample to claim C16: the event-by-event header `"MaCCQE"` with
id `0` and one variation is accepted, has `differsEventByEvent` true and no
responses. -/
theorem differsEventByEvent_iff_responses_counterexample :
    (Validate 4294967295
        { SystParamHeader.SystParamHeader 4294967295 with
          systParamId := 0, prettyName := "MaCCQE",
          paramVariations := [double.ofNat 1] } true).1 = true ∧
      ¬ (({ SystParamHeader.SystParamHeader 4294967295 with
            systParamId := 0, prettyName := "MaCCQE",
            paramVariations := [double.ofNat 1] } : SystParamHeader).differsEventByEvent
            = true ↔
          ({ SystParamHeader.SystParamHeader 4294967295 with
            systParamId := 0, prettyName := "MaCCQE",
            paramVariations := [double.ofNat 1] } : SystParamHeader).responses ≠ []) := by
  decide

/-- Claim C16, amended: for every header accepted by `Validate`,
`differsEventByEvent` is true exactly when `responses` is empty. -/
theorem accepted_differsEventByEvent_iff_no_responses (kParamUnhandled : paramId_t)
    (hdr : SystParamHeader) (quiet : Bool)
    (hacc : (Validate kParamUnhandled hdr quiet).1 = true) :
    hdr.differsEventByEvent = true ↔ hdr.responses = [] := by
  rw [Validate_fst_eq_true_iff] at hacc
  obtain ⟨-, -, -, -, -, h7⟩ := hacc
  cases hd : hdr.differsEventByEvent
  · simp only [hd, Bool.false_eq_true, if_false] at h7
    have hne : hdr.responses ≠ [] := fun h => h7.1 (by simp [h])
    simp [hne]
  · simpa [hd] using h7

/-- Witness of claim C16, amended: the accepted aggregate header `"norm"`
with one variation and one response has `differsEventByEvent` false. -/
theorem accepted_differsEventByEvent_iff_no_responses_witness :
    (Validate 4294967295
        { SystParamHeader.SystParamHeader 4294967295 with
          systParamId := 0, prettyName := "norm", differsEventByEvent := false,
          paramVariations := [double.ofNat 1], responses := [double.ofNat 2] } true).1
        = true ∧
      ((false : Bool) = true ↔ ([double.ofNat 2] : List double) = []) :=
  ⟨by decide,
    accepted_differsEventByEvent_iff_no_responses 4294967295
      { SystParamHeader.SystParamHeader 4294967295 with
        systParamId := 0, prettyName := "norm", differsEventByEvent := false,
        paramVariations := [double.ofNat 1], responses := [double.ofNat 2] }
      true (by decide)⟩

/-- Claim C17: for every accepted header, `differsEventByEvent` fixes the
shape of `responses`: empty when it is true, non-empty and as long as
`paramVariations` when it is false; so the number of responses is zero or
the number of variations. -/
theorem accepted_responses_shape (kParamUnhandled : paramId_t) (hdr : SystParamHeader)
    (quiet : Bool) (hacc : (Validate kParamUnhandled hdr quiet).1 = true) :
    (hdr.differsEventByEvent = true → hdr.responses = []) ∧
      (hdr.differsEventByEvent = false →
        hdr.responses ≠ [] ∧ hdr.responses.length = hdr.paramVariations.length) ∧
      (hdr.responses.length = 0 ∨ hdr.responses.length = hdr.paramVariations.length) := by
  rw [Validate_fst_eq_true_iff] at hacc
  obtain ⟨-, -, h3, -, -, h7⟩ := hacc
  cases hd : hdr.differsEventByEvent
  · simp only [hd, Bool.false_eq_true, if_false] at h7
    cases hc : hdr.isCorrection
    · have hlen := h7.2 hc
      refine ⟨by simp, fun _ => ⟨fun h => h7.1 (by simp [h]), hlen⟩, Or.inr hlen⟩
    · simp only [hc, if_true] at h3
      exact absurd h3.2.2 h7.1
  · simp only [hd, if_true] at h7
    refine ⟨fun _ => List.length_eq_zero.1 h7, by simp, Or.inl h7⟩

/-- Witness of claim C17: an accepted aggregate header with three variations
and three responses. -/
theorem accepted_responses_shape_witness :
    (Validate 4294967295
        { SystParamHeader.SystParamHeader 4294967295 with
          systParamId := 0, prettyName := "norm", differsEventByEvent := false,
          paramVariations := [double.ofNat 1, double.ofNat 2, double.ofNat 3],
          responses := [double.ofNat 4, double.ofNat 5, double.ofNat 6] } true).1 = true ∧
      ((false : Bool) = false →
        ([double.ofNat 4, double.ofNat 5, double.ofNat 6] : List double) ≠ [] ∧
          [double.ofNat 4, double.ofNat 5, double.ofNat 6].length
            = [double.ofNat 1, double.ofNat 2, double.ofNat 3].length) :=
  ⟨by decide,
    (accepted_responses_shape 4294967295
      { SystParamHeader.SystParamHeader 4294967295 with
        systParamId := 0, prettyName := "norm", differsEventByEvent := false,
        paramVariations := [double.ofNat 1, double.ofNat 2, double.ofNat 3],
        responses := [double.ofNat 4, double.ofNat 5, double.ofNat 6] }
      true (by decide)).2.1⟩

/-- Claim C18: no header with `isCorrection` true and `differsEventByEvent`
false is accepted, whatever its other fields: the correction check wants no
responses and the aggregate check wants some. -/
theorem Validate_aggregate_correction_rejected (kParamUnhandled : paramId_t)
    (hdr : SystParamHeader) (quiet : Bool) (hcorr : hdr.isCorrection = true)
    (hdiff : hdr.differsEventByEvent = false) :
    (Validate kParamUnhandled hdr quiet).1 = false := by
  rw [← Bool.not_eq_true, Validate_fst_eq_true_iff]
  simp only [hcorr, hdiff, if_true, Bool.false_eq_true, if_false]
  rintro ⟨-, -, ⟨-, -, h3⟩, -, -, h7, -⟩
  exact h7 h3

/-- Witness of claim C18: the correction `"norm"` with id `3` and central
value `1.0` is rejected once `differsEventByEvent` is false, with no
response and with one response. -/
theorem Validate_aggregate_correction_rejected_witness :
    (Validate 4294967295
        { SystParamHeader.SystParamHeader 4294967295 with
          systParamId := 3, prettyName := "norm", isCorrection := true,
          differsEventByEvent := false, centralParamValue := double.ofNat 1 } true).1
        = false ∧
      (Validate 4294967295
        { SystParamHeader.SystParamHeader 4294967295 with
          systParamId := 3, prettyName := "norm", isCorrection := true,
          differsEventByEvent := false, centralParamValue := double.ofNat 1,
          responses := [double.ofNat 1] } true).1 = false :=
  ⟨Validate_aggregate_correction_rejected 4294967295 _ true rfl rfl,
    Validate_aggregate_correction_rejected 4294967295 _ true rfl rfl⟩

/-- Claim C19: an accepted header with `isResponselessParam` true has
`differsEventByEvent` true, `isSplineable` false, no responses, a
`responseParamId` other than the sentinel, and a variation or
`isCorrection` true; a responseless header with `differsEventByEvent` false
is never accepted. -/
theorem accepted_responseless_shape (kParamUnhandled : paramId_t) (hdr : SystParamHeader)
    (quiet : Bool) (hless : hdr.isResponselessParam = true) :
    ((Validate kParamUnhandled hdr quiet).1 = true →
        hdr.differsEventByEvent = true ∧ hdr.isSplineable = false ∧ hdr.responses = [] ∧
          hdr.responseParamId ≠ kParamUnhandled ∧
          (hdr.paramVariations ≠ [] ∨ hdr.isCorrection = true)) ∧
      (hdr.differsEventByEvent = false →
        (Validate kParamUnhandled hdr quiet).1 = false) := by
  have hshape : (Validate kParamUnhandled hdr quiet).1 = true →
      hdr.differsEventByEvent = true ∧ hdr.isSplineable = false ∧ hdr.responses = [] ∧
        hdr.responseParamId ≠ kParamUnhandled ∧
        (hdr.paramVariations ≠ [] ∨ hdr.isCorrection = true) := by
    intro hacc
    rw [Validate_fst_eq_true_iff] at hacc
    obtain ⟨-, -, h34, h5, h6, h7⟩ := hacc
    obtain ⟨hr, hj⟩ := h6 hless
    refine ⟨?_, ?_, List.length_eq_zero.1 hr, hj, ?_⟩
    · cases hd : hdr.differsEventByEvent
      · simp only [hd, Bool.false_eq_true, if_false] at h7
        exact absurd hr h7.1
      · rfl
    · cases hs : hdr.isSplineable
      · rfl
      · rw [(h5 hs).2] at hless
        exact absurd hless Bool.false_ne_true
    · cases hc : hdr.isCorrection
      · simp only [hc, Bool.false_eq_true, if_false] at h34
        exact Or.inl fun h => h34 (by simp [h])
      · exact Or.inr rfl
  refine ⟨hshape, fun hdiff => ?_⟩
  rw [← Bool.not_eq_true]
  intro hacc
  rw [(hshape hacc).1] at hdiff
  exact absurd hdiff (by decide)

/-- Witness of claim C19: the accepted responseless header `"p2"` with id
`4`, one variation and `responseParamId` set to `5`. -/
theorem accepted_responseless_shape_witness :
    (Validate 4294967295
        { SystParamHeader.SystParamHeader 4294967295 with
          systParamId := 4, prettyName := "p2", isResponselessParam := true,
          responseParamId := 5, paramVariations := [double.ofNat 1] } true).1 = true ∧
      ((true : Bool) = true ∧ (false : Bool) = false ∧ ([] : List double) = [] ∧
        (5 : paramId_t) ≠ 4294967295 ∧
        (([double.ofNat 1] : List double) ≠ [] ∨ (false : Bool) = true)) :=
  ⟨by decide,
    (accepted_responseless_shape 4294967295
      { SystParamHeader.SystParamHeader 4294967295 with
        systParamId := 4, prettyName := "p2", isResponselessParam := true,
        responseParamId := 5, paramVariations := [double.ofNat 1] }
      true rfl).1 (by decide)⟩

/-- Claim C20: two headers that agree on `systParamId`, on whether
`prettyName` is empty, on `isCorrection`, on whether `centralParamValue` is
`0xdeadb33f`, on `isSplineable`, `isRandomlyThrown`, `isResponselessParam`,
`responseParamId`, `differsEventByEvent` and on the lengths of
`paramVariations` and `responses` get the same `bool` from `Validate`,
whatever their other fields and the elements of the two sequences. -/
theorem Validate_ignores_uninspected_fields (kParamUnhandled : paramId_t)
    (hdr hdr2 : SystParamHeader) (quiet : Bool)
    (hid : hdr.systParamId = hdr2.systParamId)
    (hname : hdr.prettyName = "" ↔ hdr2.prettyName = "")
    (hcorr : hdr.isCorrection = hdr2.isCorrection)
    (hcentral : hdr.centralParamValue.eq (double.ofNat 0xdeadb33f)
      = hdr2.centralParamValue.eq (double.ofNat 0xdeadb33f))
    (hspl : hdr.isSplineable = hdr2.isSplineable)
    (hthrown : hdr.isRandomlyThrown = hdr2.isRandomlyThrown)
    (hless : hdr.isResponselessParam = hdr2.isResponselessParam)
    (hrid : hdr.responseParamId = hdr2.responseParamId)
    (hdiff : hdr.differsEventByEvent = hdr2.differsEventByEvent)
    (hvar : hdr.paramVariations.length = hdr2.paramVariations.length)
    (hresp : hdr.responses.length = hdr2.responses.length) :
    (Validate kParamUnhandled hdr quiet).1 = (Validate kParamUnhandled hdr2 quiet).1 := by
  have hn : hdr.prettyName.utf8ByteSize ≠ 0 ↔ hdr2.prettyName.utf8ByteSize ≠ 0 := by
    simp only [ne_eq, utf8ByteSize_eq_zero_iff, hname]
  rw [Bool.eq_iff_iff, Validate_fst_eq_true_iff, Validate_fst_eq_true_iff, hid, hn, hcorr,
    hcentral, hspl, hthrown, hless, hrid, hdiff, hvar, hresp]

/-- Witness of claim C20: two accepted headers that differ in name, units,
kind of variation, one-sigma shifts, validity range, options and the values
of their variations and responses. -/
theorem Validate_ignores_uninspected_fields_witness :
    (Validate 4294967295
        { SystParamHeader.SystParamHeader 4294967295 with
          systParamId := 0, prettyName := "norm", differsEventByEvent := false,
          centralParamValue := double.ofNat 5,
          paramVariations := [double.ofNat 1, double.ofNat 2],
          responses := [double.ofNat 3, double.ofNat 4] } false).1 =
      (Validate 4294967295
        { SystParamHeader.SystParamHeader 4294967295 with
          systParamId := 0, prettyName := "scale", differsEventByEvent := false,
          isWeightSystematicVariation := false, unitsAreNatural := true,
          centralParamValue := double.ofNat 7,
          oneSigmaShifts := (double.ofNat 2, double.ofNat 1),
          paramValidityRange := (double.ofNat 9, double.ofNat 0),
          opts := ["fast"],
          paramVariations := [double.ofNat 50, double.ofNat 60],
          responses := [double.ofNat 0, double.ofNat 0] } false).1 :=
  Validate_ignores_uninspected_fields 4294967295 _ _ false rfl (by decide) rfl (by decide)
    rfl rfl rfl rfl rfl rfl rfl

end larsyst
